import Mathlib

/-!
Shallow embedding of the browser-ai Chrome extension core:
the agent orchestration loop (src/agent variants), the HITL approval
handling (background service worker and popup), the transport to the
content script, the content-script action handlers, and the popup
conversation state. Each definition is translated from the repository
source named in its doc comment.
-/

namespace BrowserAI

/-- Structured JSON-like payload used for tool-call arguments
(`toolCall.args` in the LangChain model response). -/
inductive Json where
  | null : Json
  | bool (b : Bool) : Json
  | num (n : Int) : Json
  | str (s : String) : Json
  | arr (xs : List Json) : Json
  | obj (fields : List (String × Json)) : Json

/-- Field lookup on a JSON object; `none` on non-objects or missing keys. -/
def Json.lookup : Json → String → Option Json
  | .obj fields, k => (fields.find? (fun p => p.1 == k)).map Prod.snd
  | _, _ => none

/-- True exactly on JSON strings (a `z.string()` value). -/
def Json.isStr : Json → Bool
  | .str _ => true
  | _ => false

/-- True exactly on JSON numbers (a `z.number()` value). -/
def Json.isNum : Json → Bool
  | .num _ => true
  | _ => false

/-- A tool call as produced by the model response
(`response.tool_calls[i]` in the agent code). -/
structure ToolCall where
  id : String
  name : String
  args : Json

/-- A model response: assistant content plus zero or more tool calls. -/
structure ModelResponse where
  content : String
  tool_calls : List ToolCall

/-- Names of the tools in `allTools` (src tools.ts), in declaration order. -/
def allToolNames : List String :=
  [ "get_page_dom", "find_elements", "click_element", "input_text",
    "select_option", "scroll_page", "navigate_to_url", "go_back",
    "go_forward", "refresh_page", "drag_and_drop", "hover_element",
    "right_click_element", "extract_text", "extract_attribute",
    "extract_table_data", "wait_for_element", "wait_for_page_load",
    "sleep", "request_human_assistance", "take_screenshot",
    "open_new_tab", "get_tabs_list", "switch_to_tab" ]

/-- Registry lookup, mirroring `allTools.find(t => t.name === toolCall.name)`. -/
def findToolName (name : String) : Option String :=
  allToolNames.find? (fun t => t == name)

/-- The sensitive tool set, from the agent source:
`const sensitiveTools = ['click_element', 'input_text', 'navigate_to_url', 'select_option']`. -/
def sensitiveTools : List String :=
  ["click_element", "input_text", "navigate_to_url", "select_option"]

/-- Argument-schema validation for the tools whose zod schemas the claims
mention (tools.ts): required/optional fields with their zod types. Tools not
needed by any claim are not modelled here. -/
def validateToolArgs (name : String) (args : Json) : Bool :=
  let req (k : String) (p : Json → Bool) : Bool :=
    match args.lookup k with
    | none => false
    | some v => p v
  let opt (k : String) (p : Json → Bool) : Bool :=
    match args.lookup k with
    | none => true
    | some v => p v
  match name with
  | "click_element" => req "selector" Json.isStr && opt "tabId" Json.isNum
  | "input_text" =>
      req "selector" Json.isStr && req "text" Json.isStr && opt "tabId" Json.isNum
  | "navigate_to_url" => req "url" Json.isStr && opt "tabId" Json.isNum
  | "select_option" =>
      req "selector" Json.isStr && req "value" Json.isStr && opt "tabId" Json.isNum
  | "find_elements" => req "selector" Json.isStr && opt "tabId" Json.isNum
  | _ => true

/-- A message in the LangChain conversation passed to / returned by the agent. -/
inductive ChatMsg where
  | system (content : String)
  | user (content : String)
  | assistant (response : ModelResponse)

/-- One entry of `__interrupt__[0].value.action_requests`. -/
structure ActionRequest where
  name : String
  description : String
  arguments : Json

/-- Result of one `agent.invoke` turn. `dispatched` records the tool
executions the invoke actually performed (the `(tool as any).invoke(...)`
calls); `interrupt` is `__interrupt__[0].value.action_requests` when present. -/
structure AgentResult where
  messages : List ChatMsg
  content : String
  interrupt : Option (List ActionRequest)
  dispatched : List ToolCall

/-- The gated agent variant (agent.ts in the first agent source,
`createBrowserAutomationAgent` invoke body): the first tool call is tested
against `sensitiveTools`; a sensitive call returns an interrupt without any
execution, everything else falls through to the plain content return. The
model response itself is an input (the model collaborator is external). -/
def agentInvokeGated (input : List ChatMsg) (response : ModelResponse) : AgentResult :=
  match response.tool_calls with
  | toolCall :: _ =>
    if sensitiveTools.contains toolCall.name then
      { messages := input ++ [ChatMsg.assistant response]
        content := response.content
        interrupt := some [{ name := toolCall.name
                             description := "Execute " ++ toolCall.name ++ " with the provided arguments"
                             arguments := toolCall.args }]
        dispatched := [] }
    else
      { messages := input ++ [ChatMsg.assistant response]
        content := if response.content == "" then "Task completed successfully." else response.content
        interrupt := none
        dispatched := [] }
  | [] =>
    { messages := input ++ [ChatMsg.assistant response]
      content := if response.content == "" then "Task completed successfully." else response.content
      interrupt := none
      dispatched := [] }

/-- The auto-approve agent variant (the second agent source,
`createBrowserAutomationAgent` invoke body): `requiresApproval` is the
hard-coded `false` (comment in source: disable human-in-the-loop for now),
so the interrupt branch is dead and the first tool call is looked up in
`allTools` and executed directly; an unknown name returns a
`Tool ... not found.` content instead. `execTool` stands for the external
effect of `(tool as any).invoke(toolCall.args)` (exception modelled as
`Except.error`); a performed execution is recorded in `dispatched`. -/
def agentInvokeAuto (input : List ChatMsg) (response : ModelResponse)
    (execTool : ToolCall → Except String String) : AgentResult :=
  match response.tool_calls with
  | toolCall :: _ =>
    match findToolName toolCall.name with
    | some _ =>
      match execTool toolCall with
      | .ok toolResult =>
        { messages := input ++ [ChatMsg.assistant response]
          content := "I executed " ++ toolCall.name ++ " and got: " ++ toolResult
          interrupt := none
          dispatched := [toolCall] }
      | .error e =>
        { messages := input ++ [ChatMsg.assistant response]
          content := "Tool execution failed: " ++ e
          interrupt := none
          dispatched := [toolCall] }
    | none =>
      { messages := input ++ [ChatMsg.assistant response]
        content := "Tool " ++ toolCall.name ++ " not found."
        interrupt := none
        dispatched := [] }
  | [] =>
    { messages := input ++ [ChatMsg.assistant response]
      content := if response.content == "" then "Task completed successfully." else response.content
      interrupt := none
      dispatched := [] }

/-- A HITL decision sent from the popup approval modal
(`decisions[i].type` plus optional edited `args`). -/
inductive Decision where
  | approve : Decision
  | reject : Decision
  | edit (args : Json) : Decision

/-- Response value returned by `handleHITLResponse` in the background
service worker. `dispatched` records the tool executions the handler
performed; the source performs none (its own comment: it simulates tool
execution based on the decision). -/
structure HITLResult where
  content : String
  success : Bool
  dispatched : List ToolCall

/-- The background `handleHITLResponse({sessionId, decisions})` (background
service worker): looks up the active agent for the session, reads
`decisions[0]`, and returns a canned content string per decision type; an
absent agent or absent decision is caught and reported as a failure. No
validation of edited arguments and no tool dispatch occurs anywhere in the
handler. -/
def handleHITLResponse (activeAgents : List String) (sessionId : String)
    (decisions : List Decision) : HITLResult :=
  if activeAgents.contains sessionId then
    match decisions with
    | decision :: _ =>
      let content :=
        match decision with
        | .approve => "Action approved and executed successfully."
        | .reject => "Action was rejected by user."
        | .edit _ => "Action was modified and executed successfully."
      { content := content, success := true, dispatched := [] }
    | [] =>
      { content := "Failed to process your decision: no decision provided"
        success := false, dispatched := [] }
  else
    { content := "Failed to process your decision: No active agent found for session"
      success := false, dispatched := [] }

/-- A chat message stored by the popup (Popup.tsx `Message`). -/
inductive MsgRole where
  | user : MsgRole
  | ai : MsgRole
deriving DecidableEq

/-- Popup chat message. -/
structure PMessage where
  id : String
  content : String
  role : MsgRole

/-- Popup chat session (Popup.tsx `ChatSession`; `createdAt` omitted —
no claim depends on it). -/
structure ChatSession where
  id : String
  name : String
  messages : List PMessage

/-- The popup `pendingApproval` state: session id plus the interrupt
action requests it displays. -/
structure PendingApproval where
  sessionId : String
  requests : List ActionRequest

/-- Popup component state relevant to the claims. -/
structure PopupState where
  currentSession : Option ChatSession
  chatSessions : List ChatSession
  pendingApproval : Option PendingApproval

/-- The popup `handleApproval(decision, editedArgs?)` (Popup.tsx): when a
pending approval exists, it sends `APPROVE_HITL` with the single decision
(handled by `handleHITLResponse`), appends the returned content as an `ai`
message to the current session (when one exists and the content is
non-empty), and unconditionally clears `pendingApproval`. `newMsgId`
stands for the `Date.now().toString()` message id. -/
def handleApproval (st : PopupState) (activeAgents : List String)
    (decision : Decision) (newMsgId : String) : PopupState :=
  match st.pendingApproval with
  | none => st
  | some pa =>
    let resp := handleHITLResponse activeAgents pa.sessionId [decision]
    let st' :=
      match st.currentSession with
      | some cs =>
        if resp.content == "" then st
        else
          let cs' : ChatSession :=
            { cs with messages := cs.messages ++ [({ id := newMsgId, content := resp.content, role := .ai } : PMessage)] }
          { st with
            currentSession := some cs'
            chatSessions := st.chatSessions.map (fun (s : ChatSession) => if s.id == cs.id then cs' else s) }
      | none => st
    { st' with pendingApproval := none }

/-- Outcome of `processAITask` as observed by `handleSubmit` (Popup.tsx):
either a response object with its `content` and an optional interrupt
(the `requiresApproval` payload), or a thrown error (the `catch` branch). -/
inductive AIOutcome where
  | ok (content : String) (interrupt : Option (List ActionRequest)) : AIOutcome
  | failed : AIOutcome

/-- The ai-message content `handleSubmit` appends for an outcome:
`response?.content || default` on success, the fixed apology on error. -/
def aiContentOf : AIOutcome → String
  | .ok c _ =>
    if c == "" then "I understand your request. Let me help you automate this task." else c
  | .failed => "Sorry, I encountered an error processing your request. Please check your settings and try again."

/-- The whitespace trim applied to the submitted input
(`input.trim()` in Popup.tsx), written by structural recursion over the
character list so that it evaluates. -/
def strTrim (s : String) : String :=
  String.mk (((s.data.dropWhile Char.isWhitespace).reverse.dropWhile Char.isWhitespace).reverse)

/-- The popup `handleSubmit` (Popup.tsx): ignores blank input; otherwise
takes the current session (or creates a fresh one named from the input),
appends the user message, runs `processAITask`, records a pending approval
when the response requires one, appends exactly one `ai` message (response
content or the catch-branch text), and writes the updated session back into
`chatSessions` (replacement by id for an existing current session, append
for a fresh one). `uid`/`aid` stand for the generated message ids and
`newSessionId` for the fresh session id. -/
def handleSubmit (st : PopupState) (input : String)
    (uid aid newSessionId : String) (outcome : AIOutcome) : PopupState :=
  if strTrim input == "" then st
  else
    let session : ChatSession :=
      match st.currentSession with
      | some cs => cs
      | none =>
        { id := newSessionId
          name := input.take 30 ++ (if input.length > 30 then "..." else "")
          messages := [] }
    let userMessage : PMessage := { id := uid, content := input, role := .user }
    let updatedMessages := session.messages ++ [userMessage]
    let updatedSession : ChatSession := { session with messages := updatedMessages }
    let updatedSessions :=
      match st.currentSession with
      | some _ => st.chatSessions.map (fun (s : ChatSession) => if s.id == session.id then updatedSession else s)
      | none => st.chatSessions ++ [updatedSession]
    let newPending : Option PendingApproval :=
      match outcome with
      | .ok _ (some reqs) => some { sessionId := session.id, requests := reqs }
      | _ => st.pendingApproval
    let aiMessage : PMessage := { id := aid, content := aiContentOf outcome, role := .ai }
    let finalMessages := updatedMessages ++ [aiMessage]
    let finalSession : ChatSession := { updatedSession with messages := finalMessages }
    let finalSessions := updatedSessions.map (fun (s : ChatSession) => if s.id == session.id then finalSession else s)
    { currentSession := some finalSession
      chatSessions := finalSessions
      pendingApproval := newPending }

/-- The periodic agent-cleanup sweep (background service worker
`setInterval` body): iterates the `activeAgents` entries and deletes an
entry when `Math.random() < 0.1`. The random draws are modelled by the
per-session oracle `evict`; the sweep consults nothing else — in
particular no pending-approval, in-flight or last-activity state exists in
the map it sweeps. -/
def cleanupSweep (activeAgents : List String) (evict : String → Bool) : List String :=
  activeAgents.filter (fun sessionId => !evict sessionId)

/-- A request message sent to the content script: the `type` vocabulary
the tools.ts senders use, restricted to the cases the claims need
(`unknown` stands for any other type). -/
inductive ContentMsg where
  | getDomSnapshot : ContentMsg
  | findElementsMsg (selector : String) : ContentMsg
  | clickElementMsg (selector : String) : ContentMsg
  | inputTextMsg (selector : String) (text : String) : ContentMsg
  | selectOptionMsg (selector : String) (value : String) : ContentMsg
  | scrollPageMsg (direction : String) (amount : Int) : ContentMsg
  | unknown (type : String) : ContentMsg

/-- A typed response from a content-script action handler:
`{ success, error? }` (payload fields of the extraction handlers are not
needed by any claim). -/
structure ContentResponse where
  success : Bool
  error : Option String
deriving DecidableEq

/-- Outcome of one `sendToContentScript` call: the settled promise value
and the list of `(tabId, message)` pairs actually handed to
`chrome.tabs.sendMessage`. -/
structure SendOutcome where
  result : Except String ContentResponse
  sent : List (Nat × ContentMsg)

/-- The environment the transport runs in: the active tab of the current
window (if any) and the external behaviour of `chrome.tabs.sendMessage`
to a given tab (which may itself reject, e.g. when no receiver exists). -/
structure TabsEnv where
  activeTabId : Option Nat
  deliver : Nat → ContentMsg → Except String ContentResponse

/-- The transport helper `sendToContentScript(tabId, message)` (tools.ts):
resolves the target as the explicit `tabId` or otherwise the active tab of
the current window at dispatch time; throws `No active tab found` before
sending anything when neither exists; otherwise performs exactly one
`chrome.tabs.sendMessage`. -/
def sendToContentScript (env : TabsEnv) (tabId : Option Nat) (message : ContentMsg) : SendOutcome :=
  match tabId with
  | some t => { result := env.deliver t message, sent := [(t, message)] }
  | none =>
    match env.activeTabId with
    | some t => { result := env.deliver t message, sent := [(t, message)] }
    | none => { result := .error "No active tab found", sent := [] }

/-- The `click_element` tool body (tools.ts `clickElement`): sends
`CLICK_ELEMENT` through the transport and folds the outcome — success,
failure, or a caught error — into the tool-result string. Also returns the
messages the transport sent. -/
def clickElementTool (env : TabsEnv) (tabId : Option Nat) (selector : String) :
    String × List (Nat × ContentMsg) :=
  let out := sendToContentScript env tabId (.clickElementMsg selector)
  match out.result with
  | .ok resp =>
    (if resp.success then "Successfully clicked element: " ++ selector
     else "Failed to click element: " ++ selector, out.sent)
  | .error e => ("Error clicking element: " ++ e, out.sent)

/-- A DOM element as the content-script DOM helpers see it: the CSS
selectors it matches, so that `document.querySelector(sel)` finds it
exactly when `sel` is among them. -/
structure PageElem where
  sels : List String
deriving DecidableEq

/-- The page, as an ordered list of elements;
`document.querySelector` returns the first match. -/
def querySelector (page : List PageElem) (selector : String) : Option PageElem :=
  page.find? (fun e => e.sels.contains selector)

/-- The `clickElement` of the content script at src/src/content/content.ts:
when the selector matches it clicks the element and logs, otherwise it only
logs `Element not found`; it returns nothing to the listener. The Bool
records the observable effect — whether an element was found and clicked. -/
def contentClickElement (page : List PageElem) (selector : String) : Bool :=
  (querySelector page selector).isSome

/-- The `inputText` of the content script at src/src/content/content.ts:
when the selector matches it sets the value and fires the `input` event,
otherwise it only logs `Input element not found`; it too returns nothing.
The Bool records whether an element was found and acted on. -/
def contentInputText (page : List PageElem) (selector : String) (_text : String) : Bool :=
  (querySelector page selector).isSome

/-- The `clickElement` of the other content-script copy (the one staged
after the background worker in src/src/background/background.ts): that
later iteration answers the typed error the spec describes — success when
the selector matches, `{success: false, error: Element not found}`
otherwise. -/
def contentClickElementTyped (page : List PageElem) (selector : String) : ContentResponse :=
  match querySelector page selector with
  | some _ => { success := true, error := none }
  | none => { success := false, error := some "Element not found" }

/-- The `inputText` of that same later content-script copy: success when
the selector matches, `{success: false, error: Input element not found}`
otherwise. -/
def contentInputTextTyped (page : List PageElem) (selector : String) (_text : String) : ContentResponse :=
  match querySelector page selector with
  | some _ => { success := true, error := none }
  | none => { success := false, error := some "Input element not found" }

/-- A raw DOM element as `getDOMSnapshot` inspects it: its tag, the
bounding-rect dimensions and the computed `visibility` style (dimensions
as integers; nothing in the claims depends on fractional pixels). -/
structure RawElem where
  tagName : String
  width : Int
  height : Int
  visibility : String
deriving DecidableEq

/-- The `visible` computation of `getDOMSnapshot` (content.ts):
`rect.width > 0 && rect.height > 0 && getComputedStyle(el).visibility !== 'hidden'`. -/
def elemVisible (e : RawElem) : Bool :=
  e.width > 0 && e.height > 0 && e.visibility != "hidden"

/-- A snapshot entry as built by `getDOMSnapshot`: the element data kept by
the map step together with its computed `visible` flag. -/
structure SnapElem where
  tagName : String
  width : Int
  height : Int
  visibility : String
  visible : Bool
deriving DecidableEq

/-- The map step of `getDOMSnapshot`. -/
def mkSnapElem (e : RawElem) : SnapElem :=
  { tagName := e.tagName, width := e.width, height := e.height
    visibility := e.visibility, visible := elemVisible e }

/-- The element list of the content-script `getDOMSnapshot` (content.ts):
map every element to its snapshot entry, keep the visible ones, and
`slice(0, 100)`. -/
def getDOMSnapshotElems (elems : List RawElem) : List SnapElem :=
  (((elems.map mkSnapElem).filter (fun s => s.visible)).take 100)

/-- The visibility predicate of the specification, read off a returned
snapshot entry: bounding-box width and height positive and computed
visibility not hidden. -/
def snapVisiblePred (s : SnapElem) : Bool :=
  s.width > 0 && s.height > 0 && s.visibility != "hidden"

/-- What the content-script listener at src/src/content/content.ts sends
back for one message: an action acknowledgement, or the snapshot payload,
or nothing at all (its default case only logs). `acted` records whether the
invoked DOM helper found its target and performed its action. -/
structure ListenerReaction where
  actionAck : Option ContentResponse
  snapshot : Option (List SnapElem)
  acted : Bool
deriving DecidableEq

/-- The message listener of the content script at
src/src/content/content.ts: `GET_DOM_SNAPSHOT` answers the snapshot;
`CLICK_ELEMENT`, `INPUT_TEXT` and `SCROLL_PAGE` invoke their DOM helper —
whose result is discarded — and acknowledge `{success: true}`
unconditionally; every other message type (there is no `SELECT_OPTION` or
`FIND_ELEMENTS` case in this file) falls to the default case, which only
logs and sends no response at all. `page` is the selector view and `raw`
the geometry/style view of the same document. -/
def contentOnMessage (page : List PageElem) (raw : List RawElem) :
    ContentMsg → ListenerReaction
  | .getDomSnapshot =>
    { actionAck := none, snapshot := some (getDOMSnapshotElems raw), acted := true }
  | .clickElementMsg selector =>
    { actionAck := some { success := true, error := none }, snapshot := none
      acted := contentClickElement page selector }
  | .inputTextMsg selector text =>
    { actionAck := some { success := true, error := none }, snapshot := none
      acted := contentInputText page selector text }
  | .scrollPageMsg _ _ =>
    { actionAck := some { success := true, error := none }, snapshot := none
      acted := true }
  | _ => { actionAck := none, snapshot := none, acted := false }

/-! Concrete fixtures used by the evaluation theorems below. -/

/-- A sensitive `click_element` tool call as the model would emit it. -/
def tcClick : ToolCall :=
  { id := "call_1", name := "click_element"
    args := Json.obj [("selector", Json.str "button#submit")] }

/-- A model turn consisting of exactly that sensitive call. -/
def respClick : ModelResponse := { content := "", tool_calls := [tcClick] }

/-- Stub for the external tool-execution effect: every execution succeeds. -/
def execOk : ToolCall → Except String String := fun _ => .ok "ok"

/-- A non-sensitive `find_elements` call. -/
def tcFind : ToolCall :=
  { id := "call_1", name := "find_elements"
    args := Json.obj [("selector", Json.str "div")] }

/-- A non-sensitive `extract_text` call. -/
def tcExtract : ToolCall :=
  { id := "call_2", name := "extract_text"
    args := Json.obj [("selector", Json.str "h1")] }

/-- A model turn with two tool calls in emission order. -/
def respTwoCalls : ModelResponse := { content := "", tool_calls := [tcFind, tcExtract] }

/-- The pending action request displayed by the approval modal. -/
def approvalReq : ActionRequest :=
  { name := "click_element"
    description := "Execute click_element with the provided arguments"
    arguments := Json.obj [("selector", Json.str "button#buy")] }

/-- The session that is awaiting the approval. -/
def sessApproval : ChatSession := { id := "s1", name := "Chat 1", messages := [] }

/-- Popup state with a Pending approval outstanding for session `s1`. -/
def stPendingApproval : PopupState :=
  { currentSession := some sessApproval
    chatSessions := [sessApproval]
    pendingApproval := some { sessionId := "s1", requests := [approvalReq] } }

/-- Edited arguments that violate the `click_element` schema:
`selector` is a number, not a string. -/
def badEditArgs : Json := Json.obj [("selector", Json.num 5)]

/-! Claim theorems. -/

/-- Helper: the gated agent variant performs no tool execution in any turn
(sensitive calls interrupt, everything else falls through to the content
return), so in that variant nothing dispatches ahead of a decision. -/
theorem agentInvokeGated_never_dispatches (input : List ChatMsg) (response : ModelResponse) :
    (agentInvokeGated input response).dispatched = [] := by
  unfold agentInvokeGated
  split
  · split <;> rfl
  · rfl

/-- C1: the claim fails on the auto-approve agent variant. There
`requiresApproval` is hard-coded `false` and the invoke accepts no approval
decision at all, so the sensitive `click_element` call is executed
immediately — dispatched before any approve/edit decision exists, with no
interrupt raised. -/
theorem c1_sensitive_call_dispatched_without_approval :
    sensitiveTools.contains "click_element" = true ∧
    (agentInvokeAuto [] respClick execOk).dispatched = [tcClick] ∧
    (agentInvokeAuto [] respClick execOk).interrupt = none :=
  ⟨rfl, rfl, rfl⟩

/-- C2: the claim fails on the code. `handleHITLResponse` answers an
`approve` decision with the canned text `Action approved and executed
successfully.` while performing no tool dispatch whatsoever — in fact no
decision path of the handler dispatches anything. -/
theorem c2_approve_reports_executed_without_dispatch :
    (handleHITLResponse ["s1"] "s1" [Decision.approve]).content =
      "Action approved and executed successfully." ∧
    (handleHITLResponse ["s1"] "s1" [Decision.approve]).dispatched = [] ∧
    ∀ (agents : List String) (sid : String) (ds : List Decision),
      (handleHITLResponse agents sid ds).dispatched = [] := by
  refine ⟨rfl, rfl, ?_⟩
  intro agents sid ds
  unfold handleHITLResponse
  split
  · split <;> rfl
  · rfl

/-- C3: the claim fails on the code. Resolving the pending approval with
`edit` whose arguments violate the `click_element` schema performs no
re-validation: the popup clears `pendingApproval` (it does not stay
Pending), appends the canned `Action was modified and executed
successfully.` message, and the background handler dispatches nothing —
there is no `SchemaError` path at all. -/
theorem c3_edit_skips_validation_and_clears_pending :
    validateToolArgs "click_element" badEditArgs = false ∧
    (handleApproval stPendingApproval ["s1"] (Decision.edit badEditArgs) "m2").pendingApproval = none ∧
    ((handleApproval stPendingApproval ["s1"] (Decision.edit badEditArgs) "m2").currentSession.map
        (fun cs => cs.messages.map (fun m => m.content))) =
      some ["Action was modified and executed successfully."] ∧
    (handleHITLResponse ["s1"] "s1" [Decision.edit badEditArgs]).dispatched = [] := by
  refine ⟨by decide, rfl, rfl, rfl⟩

/-- C4: the claim fails on the code. Given a model turn with two tool
calls, the auto-approve agent variant executes only `response.tool_calls[0]`
and returns; the second call is never processed. In addition, no invoke of
that variant ever dispatches more than one call per turn. -/
theorem c4_only_first_tool_call_processed :
    respTwoCalls.tool_calls.length = 2 ∧
    ((agentInvokeAuto [] respTwoCalls execOk).dispatched.map ToolCall.id) = ["call_1"] ∧
    ∀ (input : List ChatMsg) (response : ModelResponse)
      (exec : ToolCall → Except String String),
      (agentInvokeAuto input response exec).dispatched.length ≤ 1 := by
  refine ⟨rfl, rfl, ?_⟩
  intro input response exec
  unfold agentInvokeAuto
  split
  · split
    · split <;> simp
    · simp
  · simp

/-- C5: the claim fails on the code. The periodic sweep deletes an agent
entry whenever its `Math.random() < 0.1` draw hits (modelled by the `evict`
oracle); it consults no pending-approval, in-flight or idle state — its
very type takes none. So a session with a Pending approval (`s1` here) is
removed whenever its draw hits. -/
theorem c5_sweep_removes_pending_session :
    (stPendingApproval.pendingApproval.map PendingApproval.sessionId) = some "s1" ∧
    cleanupSweep ["s1"] (fun _ => true) = [] :=
  ⟨rfl, rfl⟩

/-- C6: whenever the first tool call of a model turn names a tool absent
from the registry, the auto-approve agent variant returns normally with the
synthesized `Tool ... not found.` content, the conversation extended by the
assistant turn, no interrupt and no dispatch — it neither throws nor fails
the session. -/
theorem c6_unknown_tool_synthesizes_not_found (input : List ChatMsg)
    (response : ModelResponse) (exec : ToolCall → Except String String)
    (tc : ToolCall) (rest : List ToolCall)
    (hcalls : response.tool_calls = tc :: rest)
    (hmiss : findToolName tc.name = none) :
    agentInvokeAuto input response exec =
      { messages := input ++ [ChatMsg.assistant response]
        content := "Tool " ++ tc.name ++ " not found."
        interrupt := none
        dispatched := [] } := by
  unfold agentInvokeAuto
  rw [hcalls]
  simp [hmiss]

/-- A model turn requesting a tool name that is not in the registry. -/
def respUnknownTool : ModelResponse :=
  { content := ""
    tool_calls := [{ id := "call_9", name := "fly_to_moon", args := Json.obj [] }] }

/-- Witness for C6 at a concrete unknown tool name. -/
theorem c6_unknown_tool_witness :
    agentInvokeAuto [] respUnknownTool execOk =
      { messages := [ChatMsg.assistant respUnknownTool]
        content := "Tool fly_to_moon not found."
        interrupt := none
        dispatched := [] } :=
  c6_unknown_tool_synthesizes_not_found [] respUnknownTool execOk
    { id := "call_9", name := "fly_to_moon", args := Json.obj [] } [] rfl (by decide)

/-- C7: when no execution context is reachable (no explicit tab and no
active tab), the transport fails immediately with the
`No active tab found` error, hands zero messages to
`chrome.tabs.sendMessage` (so there is nothing to wait on), and the
`click_element` tool folds the failure into an error tool-result string. -/
theorem c7_unreachable_target_fails_fast (env : TabsEnv) (message : ContentMsg)
    (selector : String) (hactive : env.activeTabId = none) :
    (sendToContentScript env none message).result = .error "No active tab found" ∧
    (sendToContentScript env none message).sent = [] ∧
    clickElementTool env none selector = ("Error clicking element: No active tab found", []) := by
  unfold clickElementTool sendToContentScript
  rw [hactive]
  exact ⟨rfl, rfl, rfl⟩

/-- Transport environment with no active tab at all. -/
def envNoTab : TabsEnv :=
  { activeTabId := none, deliver := fun _ _ => .error "Receiving end does not exist" }

/-- Witness for C7 in the no-active-tab environment. -/
theorem c7_unreachable_target_witness :
    (sendToContentScript envNoTab none ContentMsg.getDomSnapshot).result =
      .error "No active tab found" ∧
    (sendToContentScript envNoTab none ContentMsg.getDomSnapshot).sent = [] ∧
    clickElementTool envNoTab none "button#submit" =
      ("Error clicking element: No active tab found", []) :=
  c7_unreachable_target_fails_fast envNoTab ContentMsg.getDomSnapshot "button#submit" rfl

/-- A page with a single element that only matches the selector `#ok`. -/
def pageOneElem : List PageElem := [{ sels := ["#ok"] }]

/-- C8: the claim fails on the content script at src/src/content/content.ts.
For the selector `#gone`, which matches no element of the page,
`clickElement` finds nothing (it only logs), yet the listener acknowledges
`CLICK_ELEMENT` and `INPUT_TEXT` with `{success: true}` — a success
response for a missing target, never an error — and a `SELECT_OPTION`
request has no case at all: it falls to the default, which sends no
response whatsoever. The later content-script copy staged in
src/src/background/background.ts implements exactly the typed errors the
claim describes (last two conjuncts), so the claim states the intent and
the cited file is behind it. -/
theorem c8_missing_element_reported_success :
    querySelector pageOneElem "#gone" = none ∧
    contentClickElement pageOneElem "#gone" = false ∧
    (contentOnMessage pageOneElem [] (ContentMsg.clickElementMsg "#gone")).actionAck =
      some { success := true, error := none } ∧
    (contentOnMessage pageOneElem [] (ContentMsg.inputTextMsg "#gone" "hello")).actionAck =
      some { success := true, error := none } ∧
    (contentOnMessage pageOneElem [] (ContentMsg.selectOptionMsg "#gone" "red")).actionAck = none ∧
    contentClickElementTyped pageOneElem "#gone" =
      { success := false, error := some "Element not found" } ∧
    contentInputTextTyped pageOneElem "#gone" "hello" =
      { success := false, error := some "Input element not found" } :=
  ⟨rfl, rfl, rfl, rfl, rfl, rfl, rfl⟩

/-- C10: every `GET_DOM_SNAPSHOT` element list has at most 100 entries and
every returned entry satisfies the visibility predicate — positive
bounding-box width and height and computed visibility not `hidden`. -/
theorem c10_snapshot_bounded_and_visible (elems : List RawElem) :
    (getDOMSnapshotElems elems).length ≤ 100 ∧
    ∀ s ∈ getDOMSnapshotElems elems, snapVisiblePred s = true := by
  constructor
  · exact List.length_take_le 100 _
  · intro s hs
    have hs' : s ∈ (elems.map mkSnapElem).filter (fun s => s.visible) :=
      List.mem_of_mem_take hs
    have hvis : s.visible = true := (List.mem_filter.mp hs').2
    have hmem : s ∈ elems.map mkSnapElem := (List.mem_filter.mp hs').1
    obtain ⟨e, _, rfl⟩ := List.mem_map.mp hmem
    simpa [snapVisiblePred, mkSnapElem, elemVisible] using hvis

/-- A sample page for the C10 witness: one visible element, one with zero
width, one hidden by computed style. -/
def rawElemsSample : List RawElem :=
  [ { tagName := "button", width := 10, height := 4, visibility := "visible" },
    { tagName := "span", width := 0, height := 4, visibility := "visible" },
    { tagName := "div", width := 7, height := 3, visibility := "hidden" } ]

/-- One submitted user turn: the typed input, the generated ids for the
user and ai messages, the id a fresh session would get, and the observed
`processAITask` outcome. -/
structure SubmitItem where
  input : String
  uid : String
  aid : String
  nsid : String
  outcome : AIOutcome

/-- The two messages `handleSubmit` produces for one submitted turn, in
production order: the user message, then the ai message. -/
def msgsOf (it : SubmitItem) : List PMessage :=
  [{ id := it.uid, content := it.input, role := MsgRole.user },
   { id := it.aid, content := aiContentOf it.outcome, role := MsgRole.ai }]

/-- All messages a sequence of submitted turns produces, in order. -/
def allMsgsOf : List SubmitItem → List PMessage
  | [] => []
  | it :: rest => msgsOf it ++ allMsgsOf rest

/-- Submitting a sequence of user turns, one `handleSubmit` per turn. -/
def submitMany (st : PopupState) : List SubmitItem → PopupState
  | [] => st
  | it :: rest => submitMany (handleSubmit st it.input it.uid it.aid it.nsid it.outcome) rest

/-- Helper (one `handleSubmit` step on an existing current session): the
current conversation grows by exactly the user message followed by the ai
message for this turn, and every stored session with a different id
survives unchanged. -/
theorem handleSubmit_existing_session (st : PopupState) (cs : ChatSession)
    (it : SubmitItem) (hcur : st.currentSession = some cs)
    (hinput : (strTrim it.input == "") = false) :
    (handleSubmit st it.input it.uid it.aid it.nsid it.outcome).currentSession =
      some { cs with messages := cs.messages ++ msgsOf it } ∧
    ∀ s ∈ st.chatSessions, (s.id == cs.id) = false →
      s ∈ (handleSubmit st it.input it.uid it.aid it.nsid it.outcome).chatSessions := by
  unfold handleSubmit
  rw [hcur, hinput]
  simp only [Bool.false_eq_true, if_false]
  constructor
  · simp [msgsOf]
  · intro s hs hid
    refine List.mem_map.mpr ⟨s, List.mem_map.mpr ⟨s, hs, ?_⟩, ?_⟩ <;> simp [hid]

/-- C9: over any sequence of non-blank submitted turns on an existing
current session, the stored conversation of that session is exactly its
previous messages followed by the produced user/ai message pairs in
production order (earlier messages are a preserved prefix, never reordered
or mutated), and every session with a different id is still stored
unchanged — no cross-session interleaving. -/
theorem c9_conversation_append_order (st : PopupState) (cs : ChatSession)
    (items : List SubmitItem) (hcur : st.currentSession = some cs)
    (hnb : ∀ it ∈ items, (strTrim it.input == "") = false) :
    ((submitMany st items).currentSession.map ChatSession.id) = some cs.id ∧
    ((submitMany st items).currentSession.map ChatSession.messages) =
      some (cs.messages ++ allMsgsOf items) ∧
    ∀ s ∈ st.chatSessions, (s.id == cs.id) = false →
      s ∈ (submitMany st items).chatSessions := by
  induction items generalizing st cs with
  | nil =>
    refine ⟨?_, ?_, ?_⟩
    · simp [submitMany, hcur]
    · simp [submitMany, hcur, allMsgsOf]
    · intro s hs _
      simpa [submitMany] using hs
  | cons it rest ih =>
    obtain ⟨h1, h2⟩ :=
      handleSubmit_existing_session st cs it hcur (hnb it (List.mem_cons_self it rest))
    obtain ⟨g1, g2, g3⟩ :=
      ih (handleSubmit st it.input it.uid it.aid it.nsid it.outcome)
        { cs with messages := cs.messages ++ msgsOf it } h1
        (fun it' h' => hnb it' (List.mem_cons_of_mem it h'))
    refine ⟨?_, ?_, ?_⟩
    · simpa [submitMany] using g1
    · simpa [submitMany, allMsgsOf, List.append_assoc] using g2
    · intro s hs hid
      have hs1 := h2 s hs hid
      simpa [submitMany] using g3 s hs1 hid

/-- The current session for the C9 witness. -/
def csW : ChatSession := { id := "s1", name := "Chat 1", messages := [] }

/-- Another stored session that must stay untouched. -/
def otherW : ChatSession :=
  { id := "s2", name := "Chat 2"
    messages := [{ id := "m0", content := "hello", role := MsgRole.user }] }

/-- Popup state for the C9 witness. -/
def stW : PopupState :=
  { currentSession := some csW, chatSessions := [csW, otherW], pendingApproval := none }

/-- Two submitted turns for the C9 witness: one successful response, one
failed processing. -/
def itemsW : List SubmitItem :=
  [ { input := "click the buy button", uid := "u1", aid := "a1", nsid := "n1"
      outcome := AIOutcome.ok "Done." none },
    { input := "now check the cart", uid := "u2", aid := "a2", nsid := "n2"
      outcome := AIOutcome.failed } ]

/-- Witness for C9 on the concrete two-turn run. -/
theorem c9_conversation_append_order_witness :
    ((submitMany stW itemsW).currentSession.map ChatSession.id) = some "s1" ∧
    ((submitMany stW itemsW).currentSession.map ChatSession.messages) =
      some (allMsgsOf itemsW) ∧
    otherW ∈ (submitMany stW itemsW).chatSessions := by
  obtain ⟨h1, h2, h3⟩ := c9_conversation_append_order stW csW itemsW rfl (by decide)
  exact ⟨h1, by simpa [csW] using h2, h3 otherW (by simp [stW]) (by decide)⟩

/-- Witness for C10 on the sample page: the bound holds and the surviving
entry satisfies the visibility predicate. -/
theorem c10_snapshot_witness :
    (getDOMSnapshotElems rawElemsSample).length ≤ 100 ∧
    snapVisiblePred
      { tagName := "button", width := 10, height := 4
        visibility := "visible", visible := true } = true :=
  ⟨(c10_snapshot_bounded_and_visible rawElemsSample).1,
   (c10_snapshot_bounded_and_visible rawElemsSample).2
     { tagName := "button", width := 10, height := 4
       visibility := "visible", visible := true } (by decide)⟩

end BrowserAI
